import Mathlib

/-!
# NEU_scheduler — verification of the specified behaviour

Shallow embedding of the NEU_scheduler course-planning application:
the OTP authentication flow (request/verify, challenge store, user records),
the client API access layer (AuthAPI, CourseAPI), the OTP form input
sanitisation and the course-search pagination. Definitions are translated
from the TypeScript sources under client/; the server-side resolvers
(FastAPI/GraphQL, described by the repository README but absent from the
source tree) are modelled from the specification and marked as such.
-/

namespace NEUScheduler

/-! ## OTP authentication model

Modelled from the spec: the server OTP resolver and challenge store
(server/app/graphql/resolvers/auth_resolver.py, server/app/services/auth.py
and server/app/services/otp_cache.py are listed in the server README but are
not part of the source tree). The model follows sections 3, 4.1, 4.2 and 7
of the specification: a challenge store keyed by (email, purpose), single-use
codes with expiry and an attempt counter, user records created on register
and read on login, generic non-enumerable failure messages distinguishing at
most expired from invalid. -/

/-- Purpose discriminator of an OTP flow: login or register. -/
inductive Purpose where
  | login : Purpose
  | register : Purpose
deriving DecidableEq, Repr

/-- Modelled from the spec: a stored OTP challenge
{email, purpose, code, expires_at, attempt_count}, keyed by (email, purpose). -/
structure StoredChallenge where
  email : String
  purpose : Purpose
  code : String
  expiresAt : Nat
  attemptCount : Nat
deriving DecidableEq, Repr

/-- Modelled from the spec: a user record
{id, email, first_name, last_name, student_id?, major?, graduation_year?,
is_verified, created_at}. -/
structure UserRecord where
  id : String
  email : String
  firstName : String
  lastName : String
  studentId : Option String
  major : Option String
  graduationYear : Option Nat
  isVerified : Bool
  createdAt : Nat
deriving DecidableEq, Repr

/-- Modelled from the spec: profile fields submitted with a register verify. -/
structure RegisterInfo where
  firstName : String
  lastName : String
  studentId : Option String
  major : Option String
  graduationYear : Option Nat
deriving DecidableEq, Repr

/-- Modelled from the spec: the server state visible to the OTP flow —
the transient challenge store and the user records. -/
structure OtpState where
  store : List StoredChallenge
  users : List UserRecord
deriving DecidableEq, Repr

/-- Result of requestOtp: {success, message}. -/
structure RequestResult where
  success : Bool
  message : String
deriving DecidableEq, Repr

/-- Result of verifyOtp: {success, message, token, user}. -/
structure VerifyResult where
  success : Bool
  message : String
  token : Option String
  user : Option UserRecord
deriving DecidableEq, Repr

/-- Generic failure message for a wrong code, a missing challenge, or a login
against an unknown email (non-enumerable, section 7 of the spec). -/
def invalidCodeMessage : String := "invalid code"

/-- Distinguishable failure message for an expired challenge. -/
def expiredCodeMessage : String := "code expired"

/-- Failure message for a malformed email on request. -/
def invalidEmailMessage : String := "invalid email address"

/-- Success message on request. -/
def otpSentMessage : String := "verification code sent"

/-- Failure message for a register verify without the required profile fields. -/
def missingFieldsMessage : String := "missing required registration fields"

/-- Failure message for registration against an already verified email. -/
def alreadyRegisteredMessage : String := "account already exists"

/-- Success message on verify. -/
def verifiedMessage : String := "verified"

/-- Modelled from the spec: OTP expiry window in abstract time units
(minutes, configurable). -/
def otpTtl : Nat := 10

/-- Modelled from the spec: failed attempts beyond this count invalidate the
challenge (anti-brute-force, section 4.2). -/
def maxFailedAttempts : Nat := 5

/-- Modelled from the spec: minimal well-formedness check of an email address
(must look like a valid address). -/
def isValidEmail (email : String) : Bool :=
  email.toList.contains '@' && decide (email.length ≥ 3)

/-- Look up the challenge stored for (email, purpose). -/
def lookupChallenge (s : List StoredChallenge) (email : String) (purpose : Purpose) :
    Option StoredChallenge :=
  s.find? (fun c => decide (c.email = email ∧ c.purpose = purpose))

/-- Delete every challenge stored for (email, purpose). -/
def removeChallenge (s : List StoredChallenge) (email : String) (purpose : Purpose) :
    List StoredChallenge :=
  s.filter (fun c => !decide (c.email = email ∧ c.purpose = purpose))

/-- Store a challenge, replacing any prior challenge for the same key. -/
def insertChallenge (s : List StoredChallenge) (c : StoredChallenge) :
    List StoredChallenge :=
  c :: removeChallenge s c.email c.purpose

/-- Find the user record for an email. -/
def findUser (users : List UserRecord) (email : String) : Option UserRecord :=
  users.find? (fun u => decide (u.email = email))

/-- Modelled from the spec: the opaque signed session token carrying the user
id, profile fields and issue time (section 4.3; signing is abstracted). -/
def signToken (u : UserRecord) (now : Nat) : String :=
  String.intercalate "|" [u.id, u.email, u.firstName, u.lastName, toString now]

/-- Modelled from the spec: create a user record from register profile fields. -/
def newUser (email : String) (reg : RegisterInfo) (now : Nat) : UserRecord :=
  { id := email
    email := email
    firstName := reg.firstName
    lastName := reg.lastName
    studentId := reg.studentId
    major := reg.major
    graduationYear := reg.graduationYear
    isVerified := true
    createdAt := now }

/-- Modelled from the spec: requestOtp (section 4.1) — validate the email,
then store a freshly generated code for (email, purpose), replacing any prior
unconsumed code for that key, with expiry now + otpTtl. The generated code is
passed as a parameter (the generator is an external randomness source); the
email delivery collaborator is assumed to accept the message. -/
def requestOtp (st : OtpState) (email : String) (purpose : Purpose)
    (code : String) (now : Nat) : RequestResult × OtpState :=
  if isValidEmail email then
    let c : StoredChallenge :=
      { email := email, purpose := purpose, code := code,
        expiresAt := now + otpTtl, attemptCount := 0 }
    ({ success := true, message := otpSentMessage },
     { st with store := insertChallenge st.store c })
  else
    ({ success := false, message := invalidEmailMessage }, st)

instance : Inhabited RegisterInfo :=
  ⟨{ firstName := "", lastName := "", studentId := none, major := none,
     graduationYear := none }⟩

/-- Failure result helper: fail closed with a message and no token or user. -/
def failResult (message : String) : VerifyResult :=
  { success := false, message := message, token := none, user := none }

/-- Modelled from the spec: verifyOtp (section 4.2) — reject a register verify
without profile fields before any side effect; look up the challenge by
(email, purpose) and fail closed if absent; fail with the distinguishable
expired condition (consuming the challenge) once expiry has elapsed; on a code
mismatch increment the attempt counter and invalidate the challenge after too
many failures, answering the generic invalid message; on a match consume the
challenge (single use) and, for login, require an existing user record
(rejecting an unknown email with the same generic message as a wrong code),
or, for register, reject an already verified email and otherwise create or
update the user record; on success issue a session token. -/
def verifyOtp (st : OtpState) (email : String) (code : String)
    (purpose : Purpose) (now : Nat) (reg : Option RegisterInfo) :
    VerifyResult × OtpState :=
  if purpose = Purpose.register ∧ reg = none then
    (failResult missingFieldsMessage, st)
  else
    match lookupChallenge st.store email purpose with
    | none => (failResult invalidCodeMessage, st)
    | some ch =>
      if ch.expiresAt ≤ now then
        (failResult expiredCodeMessage,
         { st with store := removeChallenge st.store email purpose })
      else if code = ch.code then
        let consumed : OtpState :=
          { st with store := removeChallenge st.store email purpose }
        match purpose with
        | Purpose.login =>
          match findUser st.users email with
          | some u =>
            ({ success := true, message := verifiedMessage,
               token := some (signToken u now), user := some u }, consumed)
          | none => (failResult invalidCodeMessage, consumed)
        | Purpose.register =>
          match findUser st.users email with
          | some u =>
            if u.isVerified then
              (failResult alreadyRegisteredMessage, consumed)
            else
              let u2 := newUser email (reg.getD default) now
              ({ success := true, message := verifiedMessage,
                 token := some (signToken u2 now), user := some u2 },
               { consumed with users := u2 :: consumed.users.filter (fun v => !decide (v.email = email)) })
          | none =>
            let u2 := newUser email (reg.getD default) now
            ({ success := true, message := verifiedMessage,
               token := some (signToken u2 now), user := some u2 },
             { consumed with users := u2 :: consumed.users })
      else
        let attempts := ch.attemptCount + 1
        if maxFailedAttempts ≤ attempts then
          (failResult invalidCodeMessage,
           { st with store := removeChallenge st.store email purpose })
        else
          (failResult invalidCodeMessage,
           { st with store := insertChallenge st.store { ch with attemptCount := attempts } })

/-! ## Client API access layer (client/lib/api/auth.ts) -/

/-- Embeds the User type of client/types/auth.ts: snake_case profile fields
plus camelCase aliases kept for backwards compatibility. An Option field
models a runtime value that may be absent (undefined) on the wire. -/
structure ClientUser where
  id : String
  email : String
  first_name : Option String
  last_name : Option String
  student_id : Option String
  major : Option String
  graduation_year : Option Nat
  is_verified : Option Bool
  created_at : Option String
  firstName : Option String
  lastName : Option String
  studentId : Option String
  graduationYear : Option Nat
  isVerified : Option Bool
  createdAt : Option String
deriving DecidableEq, Repr

/-- Embeds the AuthResponse type of client/types/auth.ts:
{success, message, token?, user?}. -/
structure AuthResponse where
  success : Bool
  message : String
  token : Option String
  user : Option ClientUser
deriving DecidableEq, Repr

/-- Embeds the error value caught in the AuthAPI catch blocks: whether the
thrown value is an Error instance, and the GraphQL response error messages
(response.errors[].message) carried by a graphql-request failure. -/
structure GqlErrorInfo where
  isErrorInstance : Bool
  responseErrors : List (Option String)
deriving DecidableEq, Repr

namespace AuthAPI

/-- Generic failure message of AuthAPI.requestOTP (catch branch). -/
def requestOtpFailureMessage : String :=
  "Failed to send verification code. Please try again."

/-- Generic failure message of AuthAPI.verifyOTP (catch branch default). -/
def verifyOtpFailureMessage : String :=
  "Verification failed. Please check your code and try again."

/-- Message of AuthAPI.verifyOTP when the GraphQL response is null. -/
def verifyOtpNullResponseMessage : String :=
  "Verification failed. The server did not respond properly."

/-- Message of AuthAPI.verifyOTP when the verifyOtp field is missing. -/
def verifyOtpMissingFieldMessage : String :=
  "Verification failed. Invalid server response format."

/-- Embeds the response and error handling of AuthAPI.requestOTP
(client/lib/api/auth.ts). The argument is the outcome of the GraphQL
request: a thrown error, a null response (whose requestOtp field access
raises inside the try and lands in the same catch), or the requestOtp
payload. The catch branch returns the generic failure response. -/
def requestOTP (r : Except GqlErrorInfo (Option AuthResponse)) : AuthResponse :=
  match r with
  | Except.ok (some resp) => resp
  | Except.ok none =>
    { success := false, message := requestOtpFailureMessage,
      token := none, user := none }
  | Except.error _ =>
    { success := false, message := requestOtpFailureMessage,
      token := none, user := none }

/-- Embeds the GraphQL response object of the VerifyOTP mutation: the
verifyOtp field may be missing. -/
structure VerifyOtpPayload where
  verifyOtp : Option AuthResponse
deriving DecidableEq, Repr

/-- Embeds the catch branch of AuthAPI.verifyOTP: when the caught value is an
Error carrying GraphQL errors, the returned message embeds the first GraphQL
error message (falling back to Unknown error when it is empty or absent);
otherwise the generic failure message is used. -/
def gqlCatchMessage (e : GqlErrorInfo) : String :=
  if e.isErrorInstance then
    match e.responseErrors with
    | [] => verifyOtpFailureMessage
    | first :: _ =>
      "GraphQL error: " ++
        (match first with
         | some m => if m = "" then "Unknown error" else m
         | none => "Unknown error")
  else verifyOtpFailureMessage

/-- Embeds the response and error handling of AuthAPI.verifyOTP
(client/lib/api/auth.ts): a null response and a missing verifyOtp field each
yield a distinct failure response; a thrown error yields a failure response
whose message is built by the catch branch; otherwise the payload is
returned unchanged. -/
def verifyOTP (r : Except GqlErrorInfo (Option VerifyOtpPayload)) : AuthResponse :=
  match r with
  | Except.ok none =>
    { success := false, message := verifyOtpNullResponseMessage,
      token := none, user := none }
  | Except.ok (some p) =>
    match p.verifyOtp with
    | none =>
      { success := false, message := verifyOtpMissingFieldMessage,
        token := none, user := none }
    | some resp => resp
  | Except.error e =>
    { success := false, message := gqlCatchMessage e,
      token := none, user := none }

end AuthAPI

/-! ## NextAuth signin provider mapping (client/auth.ts) -/

/-- JavaScript truthiness of an optional string: absent and empty are falsy. -/
def jsTruthyStr (o : Option String) : Option String :=
  match o with
  | some str => if str = "" then none else some str
  | none => none

/-- Embeds the JavaScript expression a or-else b or-else the empty string
(the || operator on strings). -/
def jsOrStr (a b : Option String) : String :=
  (jsTruthyStr a).getD ((jsTruthyStr b).getD "")

/-- Embeds a or-else b or-else undefined on strings. -/
def jsOrOptStr (a b : Option String) : Option String :=
  match jsTruthyStr a with
  | some str => some str
  | none => jsTruthyStr b

/-- JavaScript truthiness of an optional number: absent and zero are falsy. -/
def jsTruthyNat (o : Option Nat) : Option Nat :=
  match o with
  | some n => if n = 0 then none else some n
  | none => none

/-- Embeds a or-else b or-else undefined on numbers. -/
def jsOrOptNat (a b : Option Nat) : Option Nat :=
  match jsTruthyNat a with
  | some n => some n
  | none => jsTruthyNat b

/-- The NextAuth user object produced by the signin provider. -/
structure MappedUser where
  id : String
  email : String
  firstName : String
  lastName : String
  studentId : Option String
  major : Option String
  graduationYear : Option Nat
  isVerified : Bool
deriving DecidableEq, Repr

/-- Embeds the user mapping of the signin provider authorize callback
(client/auth.ts): firstName is user.first_name or-else user.firstName or-else
the empty string, and likewise for the other profile fields; isVerified is
user.is_verified nullish-coalesced with user.isVerified and then true. -/
def mapSigninUser (u : ClientUser) : MappedUser :=
  { id := u.id
    email := u.email
    firstName := jsOrStr u.first_name u.firstName
    lastName := jsOrStr u.last_name u.lastName
    studentId := jsOrOptStr u.student_id u.studentId
    major := jsTruthyStr u.major
    graduationYear := jsOrOptNat u.graduation_year u.graduationYear
    isVerified := u.is_verified.getD (u.isVerified.getD true) }

/-- A server user with every optional field absent. -/
def baseClientUser : ClientUser :=
  { id := "u1", email := "a@neu.edu",
    first_name := none, last_name := none, student_id := none, major := none,
    graduation_year := none, is_verified := none, created_at := none,
    firstName := none, lastName := none, studentId := none,
    graduationYear := none, isVerified := none, createdAt := none }

/-- A server user carrying only the snake_case first name. -/
def snakeOnlyUser : ClientUser := { baseClientUser with first_name := some "Ada" }

/-- A server user carrying only the camelCase first name. -/
def camelOnlyUser : ClientUser := { baseClientUser with firstName := some "Ada" }

/-! ## Course API access layer (client/lib/api/course.ts) -/

/-- Embeds the Term type of client/types/api.ts. -/
structure Term where
  id : String
  name : String
deriving DecidableEq, Repr

/-- Embeds the Subject type of client/types/api.ts. -/
structure Subject where
  code : String
  name : String
deriving DecidableEq, Repr

/-- Embeds the Class type of client/types/api.ts. -/
structure Class where
  crn : String
  title : String
  subject : String
  courseNumber : String
  instructor : Option String
  meetingDays : Option String
  meetingTimes : Option String
  location : Option String
  enrollment : Option Nat
  enrollmentCap : Option Nat
  credits : Option Nat
deriving DecidableEq, Repr

/-- Embeds the SuggestedPlan entry {year, term, courses} of
client/types/api.ts, together with the optional credits and notes fields
requested by the suggestPlan GraphQL query. -/
structure SuggestedPlan where
  year : Nat
  term : String
  courses : List String
  credits : Option Nat
  notes : Option String
deriving DecidableEq, Repr

namespace CourseAPI

/-- A GetTerms GraphQL response whose getTerms field may be missing. -/
structure GetTermsResponse where
  getTerms : Option (List Term)
deriving DecidableEq, Repr

/-- A GetSubjects GraphQL response whose getSubjects field may be missing. -/
structure GetSubjectsResponse where
  getSubjects : Option (List Subject)
deriving DecidableEq, Repr

/-- A SearchCourses GraphQL response whose searchCourses field may be
missing. -/
structure SearchCoursesResponse where
  searchCourses : Option (List Class)
deriving DecidableEq, Repr

/-- A SuggestPlan GraphQL response whose suggestPlan field may be missing. -/
structure SuggestPlanResponse where
  suggestPlan : Option (List SuggestedPlan)
deriving DecidableEq, Repr

/-- Embeds the non-throwing result path of CourseAPI.getTerms
(client/lib/api/course.ts): response.getTerms or-else the empty list. -/
def getTerms (r : GetTermsResponse) : List Term :=
  r.getTerms.getD []

/-- Embeds the non-throwing result path of CourseAPI.getSubjects:
response.getSubjects or-else the empty list. -/
def getSubjects (r : GetSubjectsResponse) : List Subject :=
  r.getSubjects.getD []

/-- Embeds the non-throwing result path of CourseAPI.searchCourses:
response.searchCourses or-else the empty list. -/
def searchCourses (r : SearchCoursesResponse) : List Class :=
  r.searchCourses.getD []

/-- Embeds the non-throwing result path of CourseAPI.suggestPlan:
response.suggestPlan or-else the empty list. -/
def suggestPlan (r : SuggestPlanResponse) : List SuggestedPlan :=
  r.suggestPlan.getD []

end CourseAPI

/-! ## Plan suggestion resolver -/

namespace CourseResolver

/-- Modelled from the spec: the policy-defined term labels making up one
academic year worth of terms in a suggested plan. -/
def planTermsPerYear : List String := ["Fall", "Spring"]

/-- Modelled from the spec: the server suggestPlan resolver
(server/app/graphql/resolvers/course_resolver.py, listed in the server
README but not part of the source tree). Following section 6 and the
testable property of section 8, suggestPlan(interest, years) returns a
sequence of semester entries {year, term, courses, credits?, notes?}
covering exactly the requested number of years worth of terms, one entry
per policy term per year, each with a non-empty course list derived from
the interest. -/
def suggestPlan (interest : String) (years : Nat) : List SuggestedPlan :=
  ((List.range years).map (fun y =>
    planTermsPerYear.map (fun t =>
      ({ year := y + 1, term := t,
         courses := [interest ++ " core course", interest ++ " elective"],
         credits := some 8, notes := none } : SuggestedPlan)))).flatten

end CourseResolver

/-! ## OTP form input sanitisation (client/components/auth/auth-form.tsx) -/

/-- Embeds the verification-code input handler of OTPAuthForm: the typed
value with every non-digit character removed, truncated to the first six
characters. -/
def sanitizeOtpInput (s : String) : String :=
  ((s.toList.filter Char.isDigit).take 6).asString

/-! ## Course search pagination (client/components/course-search.tsx) -/

namespace CourseSearch

/-- The fixed page size of the course search results. -/
def itemsPerPage : Nat := 15

/-- Embeds Math.ceil(courses.length / itemsPerPage) as Nat ceiling
division (the division is exact on these magnitudes). -/
def totalPages (courses : List Class) : Nat :=
  (courses.length + itemsPerPage - 1) / itemsPerPage

/-- Embeds startIndex = (currentPage - 1) * itemsPerPage. -/
def startIndex (page : Nat) : Nat := (page - 1) * itemsPerPage

/-- Embeds endIndex = startIndex + itemsPerPage. -/
def endIndex (page : Nat) : Nat := startIndex page + itemsPerPage

/-- Array.prototype.slice on lists: the elements from index s (inclusive)
to index e (exclusive). -/
def slice (l : List Class) (s e : Nat) : List Class :=
  (l.drop s).take (e - s)

/-- Embeds currentCourses = courses.slice(startIndex, endIndex). -/
def currentCourses (courses : List Class) (page : Nat) : List Class :=
  slice courses (startIndex page) (endIndex page)

end CourseSearch

/-! ## Concrete demonstration inputs -/

/-- A registered, verified user. -/
def demoUser : UserRecord :=
  { id := "u1", email := "a@neu.edu", firstName := "Ada", lastName := "L",
    studentId := none, major := none, graduationYear := none,
    isVerified := true, createdAt := 0 }

/-- A stored login challenge for the demo user, code 123456, expiring at
time 100. -/
def demoChallenge : StoredChallenge :=
  { email := "a@neu.edu", purpose := Purpose.login, code := "123456",
    expiresAt := 100, attemptCount := 0 }

/-- State with the demo challenge and the registered demo user. -/
def demoLoginState : OtpState :=
  { store := [demoChallenge], users := [demoUser] }

/-- State with the demo challenge and no user records. -/
def demoNoUserState : OtpState :=
  { store := [demoChallenge], users := [] }

/-- The empty server state. -/
def emptyOtpState : OtpState := { store := [], users := [] }

/-- A demonstration course with the given reference number. -/
def demoClass (n : Nat) : Class :=
  { crn := toString n, title := "Algorithms", subject := "CS",
    courseNumber := toString n, instructor := none, meetingDays := none,
    meetingTimes := none, location := none, enrollment := none,
    enrollmentCap := none, credits := none }

/-- Twenty demonstration courses: two pages at fifteen per page. -/
def demoCourses : List Class := (List.range 20).map demoClass

/-- A caught upstream failure carrying a raw provider error message. -/
def rawGqlFailure : GqlErrorInfo :=
  { isErrorInstance := true, responseErrors := [some "upstream provider exploded"] }

/-! ### Store lemmas -/

/-- After removing a key, no challenge for that key is found. -/
theorem lookupChallenge_removeChallenge (s : List StoredChallenge)
    (email : String) (purpose : Purpose) :
    lookupChallenge (removeChallenge s email purpose) email purpose = none := by
  rw [lookupChallenge, List.find?_eq_none]
  intro c hc
  rcases List.mem_filter.mp hc with ⟨-, hkeep⟩
  simp only [Bool.not_eq_true', decide_eq_false_iff_not] at hkeep
  simpa using hkeep

/-- A successful verify consumes the stored challenge: the resulting store is
the store with the (email, purpose) key removed. -/
theorem verifyOtp_success_store (st : OtpState) (email : String) (code : String)
    (purpose : Purpose) (now : Nat) (reg : Option RegisterInfo)
    (h : (verifyOtp st email code purpose now reg).1.success = true) :
    (verifyOtp st email code purpose now reg).2.store =
      removeChallenge st.store email purpose := by
  by_cases hval : purpose = Purpose.register ∧ reg = none
  · simp [verifyOtp, hval, failResult] at h
  · cases hch : lookupChallenge st.store email purpose with
    | none => simp [verifyOtp, hval, hch, failResult] at h
    | some ch =>
      by_cases hexp : ch.expiresAt ≤ now
      · simp [verifyOtp, hval, hch, hexp, failResult] at h
      · by_cases hcode : code = ch.code
        · cases purpose with
          | login =>
            cases hu : findUser st.users email with
            | some u => simp [verifyOtp, hch, hexp, hcode, hu]
            | none => simp [verifyOtp, hch, hexp, hcode, hu, failResult] at h
          | register =>
            have hreg : ¬ reg = none := fun hr => hval ⟨rfl, hr⟩
            cases hu : findUser st.users email with
            | some u =>
              by_cases hv : u.isVerified = true
              · simp [verifyOtp, hreg, hch, hexp, hcode, hu, hv, failResult] at h
              · simp [verifyOtp, hreg, hch, hexp, hcode, hu, hv]
            | none => simp [verifyOtp, hreg, hch, hexp, hcode, hu]
        · by_cases hmax : maxFailedAttempts ≤ ch.attemptCount + 1
          · simp [verifyOtp, hval, hch, hexp, hcode, hmax, failResult] at h
          · simp [verifyOtp, hval, hch, hexp, hcode, hmax, failResult] at h

/-- A fresh insert is found, with its own fields. -/
theorem lookupChallenge_insertChallenge_self (s : List StoredChallenge)
    (c : StoredChallenge) :
    lookupChallenge (insertChallenge s c) c.email c.purpose = some c := by
  unfold lookupChallenge insertChallenge
  rw [List.find?_cons_of_pos]
  simp

/-- Without a stored challenge for the key, verify fails closed. -/
theorem verifyOtp_no_challenge_fails (st : OtpState) (email : String)
    (code : String) (purpose : Purpose) (now : Nat) (reg : Option RegisterInfo)
    (hch : lookupChallenge st.store email purpose = none) :
    (verifyOtp st email code purpose now reg).1.success = false := by
  by_cases hval : purpose = Purpose.register ∧ reg = none
  · simp [verifyOtp, hval, failResult]
  · simp [verifyOtp, hval, hch, failResult]

/-- A verify with a code different from the stored one fails. -/
theorem verifyOtp_wrong_code_fails (st : OtpState) (email : String)
    (code : String) (purpose : Purpose) (now : Nat) (reg : Option RegisterInfo)
    (ch : StoredChallenge)
    (hch : lookupChallenge st.store email purpose = some ch)
    (hcode : code ≠ ch.code) :
    (verifyOtp st email code purpose now reg).1.success = false := by
  by_cases hval : purpose = Purpose.register ∧ reg = none
  · simp [verifyOtp, hval, failResult]
  · by_cases hexp : ch.expiresAt ≤ now
    · simp [verifyOtp, hval, hch, hexp, failResult]
    · by_cases hmax : maxFailedAttempts ≤ ch.attemptCount + 1
      · simp [verifyOtp, hval, hch, hexp, hcode, hmax, failResult]
      · simp [verifyOtp, hval, hch, hexp, hcode, hmax, failResult]

/-- Claim C1: an OTP challenge is single-use — once verifyOtp succeeds for
(email, code, purpose), a second verifyOtp against the resulting state with
the same email, code and purpose returns success = false: the successful
verify consumed the challenge, so replay is impossible. -/
theorem otp_verify_single_use (st : OtpState) (email : String) (code : String)
    (purpose : Purpose) (now : Nat) (reg : Option RegisterInfo)
    (now2 : Nat) (reg2 : Option RegisterInfo)
    (h : (verifyOtp st email code purpose now reg).1.success = true) :
    (verifyOtp (verifyOtp st email code purpose now reg).2
      email code purpose now2 reg2).1.success = false := by
  apply verifyOtp_no_challenge_fails
  rw [verifyOtp_success_store st email code purpose now reg h]
  exact lookupChallenge_removeChallenge st.store email purpose

/-- Witness for C1 at a concrete state: the login verify for a@neu.edu with
code 123456 succeeds, and replaying it against the resulting state fails. -/
theorem otp_verify_single_use_witness :
    (verifyOtp demoLoginState "a@neu.edu" "123456" Purpose.login 50 none).1.success = true
    ∧ (verifyOtp (verifyOtp demoLoginState "a@neu.edu" "123456" Purpose.login 50 none).2
        "a@neu.edu" "123456" Purpose.login 50 none).1.success = false :=
  ⟨by decide,
   otp_verify_single_use demoLoginState "a@neu.edu" "123456" Purpose.login 50 none
     50 none (by decide)⟩

/-- Claim C2: at most one challenge is outstanding per (email, purpose) —
a second requestOtp replaces the stored code, so the store afterwards holds
the second code, and verifying with the first code (different from the
second) fails. -/
theorem otp_request_supersedes (st : OtpState) (email : String)
    (purpose : Purpose) (c1 c2 : String) (t1 t2 t3 : Nat)
    (reg : Option RegisterInfo)
    (hvalid : isValidEmail email = true) (hne : c1 ≠ c2) :
    ((lookupChallenge
        ((requestOtp ((requestOtp st email purpose c1 t1).2) email purpose c2 t2).2.store)
        email purpose).map (fun c => c.code) = some c2)
    ∧ (verifyOtp ((requestOtp ((requestOtp st email purpose c1 t1).2) email purpose c2 t2).2)
        email c1 purpose t3 reg).1.success = false := by
  have hstore :
      (requestOtp ((requestOtp st email purpose c1 t1).2) email purpose c2 t2).2.store =
        insertChallenge ((requestOtp st email purpose c1 t1).2).store
          { email := email, purpose := purpose, code := c2,
            expiresAt := t2 + otpTtl, attemptCount := 0 } := by
    simp [requestOtp, hvalid]
  have hlook :
      lookupChallenge
        ((requestOtp ((requestOtp st email purpose c1 t1).2) email purpose c2 t2).2.store)
        email purpose =
      some { email := email, purpose := purpose, code := c2,
             expiresAt := t2 + otpTtl, attemptCount := 0 } := by
    rw [hstore]
    exact lookupChallenge_insertChallenge_self _ _
  refine ⟨by rw [hlook]; rfl, ?_⟩
  exact verifyOtp_wrong_code_fails _ _ _ _ _ _ _ hlook hne

/-- Witness for C2 at concrete inputs: requesting codes 111111 then 222222
for a@neu.edu leaves 222222 stored, and verifying 111111 fails. -/
theorem otp_request_supersedes_witness :
    isValidEmail "a@neu.edu" = true
    ∧ ((lookupChallenge
          ((requestOtp ((requestOtp emptyOtpState "a@neu.edu" Purpose.login "111111" 0).2)
            "a@neu.edu" Purpose.login "222222" 5).2.store)
          "a@neu.edu" Purpose.login).map (fun c => c.code) = some "222222")
    ∧ (verifyOtp ((requestOtp ((requestOtp emptyOtpState "a@neu.edu" Purpose.login "111111" 0).2)
          "a@neu.edu" Purpose.login "222222" 5).2)
        "a@neu.edu" "111111" Purpose.login 6 none).1.success = false :=
  ⟨by decide,
   (otp_request_supersedes emptyOtpState "a@neu.edu" Purpose.login "111111" "222222"
      0 5 6 none (by decide) (by decide)).1,
   (otp_request_supersedes emptyOtpState "a@neu.edu" Purpose.login "111111" "222222"
      0 5 6 none (by decide) (by decide)).2⟩

/-- Claim C3: once the expiry of a stored challenge has elapsed, verifying
with the correct code fails even without any prior attempt, and the failure
message is the distinguishable expired condition, different from the
incorrect-code condition. -/
theorem otp_expired_distinguishable (st : OtpState) (email : String)
    (purpose : Purpose) (now : Nat) (reg : Option RegisterInfo)
    (ch : StoredChallenge)
    (hch : lookupChallenge st.store email purpose = some ch)
    (hexp : ch.expiresAt ≤ now)
    (hreg : purpose = Purpose.register → reg ≠ none) :
    (verifyOtp st email ch.code purpose now reg).1.success = false
    ∧ (verifyOtp st email ch.code purpose now reg).1.message = expiredCodeMessage
    ∧ expiredCodeMessage ≠ invalidCodeMessage := by
  have hval : ¬(purpose = Purpose.register ∧ reg = none) :=
    fun hpair => hreg hpair.1 hpair.2
  refine ⟨?_, ?_, by decide⟩ <;> simp [verifyOtp, hval, hch, hexp, failResult]

/-- Witness for C3 at a concrete state: at time 150 the demo challenge
(expiring at 100) fails with the expired message even with code 123456. -/
theorem otp_expired_distinguishable_witness :
    lookupChallenge demoLoginState.store "a@neu.edu" Purpose.login = some demoChallenge
    ∧ (verifyOtp demoLoginState "a@neu.edu" "123456" Purpose.login 150 none).1.success = false
    ∧ (verifyOtp demoLoginState "a@neu.edu" "123456" Purpose.login 150 none).1.message
        = expiredCodeMessage :=
  ⟨by decide,
   (otp_expired_distinguishable demoLoginState "a@neu.edu" Purpose.login 150 none
      demoChallenge (by decide) (by decide) (by decide)).1,
   (otp_expired_distinguishable demoLoginState "a@neu.edu" Purpose.login 150 none
      demoChallenge (by decide) (by decide) (by decide)).2.1⟩

/-- Claim C4: a login verify for an unregistered email with the correct code
fails with exactly the same message as a login verify with a wrong code for
a registered email — the response does not reveal whether an email is
registered. -/
theorem otp_login_no_enumeration (st1 st2 : OtpState) (e1 e2 : String)
    (wrong : String) (t1 t2 : Nat) (ch1 ch2 : StoredChallenge)
    (hch1 : lookupChallenge st1.store e1 Purpose.login = some ch1)
    (hexp1 : ¬ ch1.expiresAt ≤ t1)
    (hu1 : findUser st1.users e1 = none)
    (hch2 : lookupChallenge st2.store e2 Purpose.login = some ch2)
    (hexp2 : ¬ ch2.expiresAt ≤ t2)
    (hu2 : (findUser st2.users e2).isSome = true)
    (hwrong : wrong ≠ ch2.code) :
    (verifyOtp st1 e1 ch1.code Purpose.login t1 none).1.success = false
    ∧ (verifyOtp st2 e2 wrong Purpose.login t2 none).1.success = false
    ∧ (verifyOtp st1 e1 ch1.code Purpose.login t1 none).1.message
        = (verifyOtp st2 e2 wrong Purpose.login t2 none).1.message := by
  have h1 : (verifyOtp st1 e1 ch1.code Purpose.login t1 none).1
      = failResult invalidCodeMessage := by
    simp [verifyOtp, hch1, hexp1, hu1]
  have h2 : (verifyOtp st2 e2 wrong Purpose.login t2 none).1
      = failResult invalidCodeMessage := by
    by_cases hmax : maxFailedAttempts ≤ ch2.attemptCount + 1
    · simp [verifyOtp, hch2, hexp2, hwrong, hmax]
    · simp [verifyOtp, hch2, hexp2, hwrong, hmax]
  exact ⟨by rw [h1]; rfl, by rw [h2]; rfl, by rw [h1, h2]⟩

/-- Witness for C4 at concrete states: verifying the correct code 123456 for
the unregistered a@neu.edu and verifying the wrong code 000000 for the
registered a@neu.edu produce equal messages, both failures. -/
theorem otp_login_no_enumeration_witness :
    (verifyOtp demoNoUserState "a@neu.edu" "123456" Purpose.login 50 none).1.success = false
    ∧ (verifyOtp demoLoginState "a@neu.edu" "000000" Purpose.login 50 none).1.success = false
    ∧ (verifyOtp demoNoUserState "a@neu.edu" "123456" Purpose.login 50 none).1.message
        = (verifyOtp demoLoginState "a@neu.edu" "000000" Purpose.login 50 none).1.message :=
  otp_login_no_enumeration demoNoUserState demoLoginState "a@neu.edu" "a@neu.edu"
    "000000" 50 50 demoChallenge demoChallenge (by decide) (by decide) (by decide)
    (by decide) (by decide) (by decide) (by decide)

/-- Claim C5 counterexample: on a caught upstream failure carrying a GraphQL
error, AuthAPI.verifyOTP returns success = false but its message embeds the
raw upstream error text, which is none of the generic client messages — the
raw provider error reaches the caller inside the message. -/
theorem verifyOTP_raw_error_counterexample :
    AuthAPI.verifyOTP (Except.error rawGqlFailure) =
      { success := false, message := "GraphQL error: upstream provider exploded",
        token := none, user := none }
    ∧ "GraphQL error: upstream provider exploded" ≠ AuthAPI.verifyOtpFailureMessage
    ∧ "GraphQL error: upstream provider exploded" ≠ AuthAPI.requestOtpFailureMessage
    ∧ "GraphQL error: upstream provider exploded" ≠ AuthAPI.verifyOtpNullResponseMessage
    ∧ "GraphQL error: upstream provider exploded" ≠ AuthAPI.verifyOtpMissingFieldMessage :=
  ⟨rfl, by decide, by decide, by decide, by decide⟩

/-- Claim C5 (amended): on every upstream or transport failure both
AuthAPI.requestOTP and AuthAPI.verifyOTP return success = false instead of
throwing; requestOTP always answers the fixed generic message, and verifyOTP
answers the generic message whenever the caught error carries no GraphQL
error list (its message embeds the first GraphQL error message otherwise). -/
theorem authAPI_error_boundary (e : GqlErrorInfo) :
    (AuthAPI.requestOTP (Except.error e)).success = false
    ∧ (AuthAPI.requestOTP (Except.error e)).message = AuthAPI.requestOtpFailureMessage
    ∧ (AuthAPI.verifyOTP (Except.error e)).success = false
    ∧ (e.responseErrors = [] ∨ e.isErrorInstance = false →
        (AuthAPI.verifyOTP (Except.error e)).message = AuthAPI.verifyOtpFailureMessage) := by
  refine ⟨rfl, rfl, rfl, ?_⟩
  intro h
  rcases e with ⟨inst, errs⟩
  rcases h with h | h
  · have herrs : errs = [] := h
    subst herrs
    cases inst <;> rfl
  · have hinst : inst = false := h
    subst hinst
    rfl

/-- Witness for the amended C5 at a concrete error without GraphQL errors:
requestOTP fails closed and verifyOTP answers the generic message. -/
theorem authAPI_error_boundary_witness :
    (AuthAPI.requestOTP (Except.error ⟨false, []⟩)).success = false
    ∧ (AuthAPI.verifyOTP (Except.error ⟨false, []⟩)).message
        = AuthAPI.verifyOtpFailureMessage :=
  ⟨(authAPI_error_boundary ⟨false, []⟩).1,
   (authAPI_error_boundary ⟨false, []⟩).2.2.2 (Or.inr rfl)⟩

/-- Claim C6 counterexample: the signin authorize mapping reads both the
snake_case and the camelCase variant of the first-name field as fallbacks —
starting from a user with neither variant (mapped to the empty string),
setting only first_name changes the output, and so does setting only
firstName. Business logic therefore consumes both casings, refuting the
single-translation-point claim. -/
theorem signin_dual_casing_counterexample :
    (mapSigninUser snakeOnlyUser).firstName = "Ada"
    ∧ (mapSigninUser camelOnlyUser).firstName = "Ada"
    ∧ (mapSigninUser baseClientUser).firstName = ""
    ∧ snakeOnlyUser = { baseClientUser with first_name := some "Ada" }
    ∧ camelOnlyUser = { baseClientUser with firstName := some "Ada" } := by
  decide

/-- Claim C6 (amended): the signin authorize does not rely on a single casing
convention; it maps the server user by reading both variants with fallback —
a non-empty snake_case first_name wins, and otherwise a non-empty camelCase
firstName is used. -/
theorem signin_casing_fallback (u : ClientUser) (s : String) (hs : s ≠ "") :
    (u.first_name = some s → (mapSigninUser u).firstName = s)
    ∧ (jsTruthyStr u.first_name = none → u.firstName = some s →
        (mapSigninUser u).firstName = s) := by
  constructor
  · intro h1
    simp [mapSigninUser, jsOrStr, jsTruthyStr, h1, hs]
  · intro h0 h1
    show (jsTruthyStr u.first_name).getD ((jsTruthyStr u.firstName).getD "") = s
    rw [h0, h1]
    simp [jsTruthyStr, hs]

/-- Witness for the amended C6: the camelCase-only user maps to first name
Ada through the camelCase fallback. -/
theorem signin_casing_fallback_witness :
    ("Ada" : String) ≠ "" ∧ (mapSigninUser camelOnlyUser).firstName = "Ada" :=
  ⟨by decide,
   (signin_casing_fallback camelOnlyUser "Ada" (by decide)).2 (by decide) (by decide)⟩

/-- The flattened map has length l.length * k when every image has length
k. -/
theorem flatten_map_length {α β : Type} (f : α → List β) (l : List α) (k : Nat)
    (hf : ∀ a ∈ l, (f a).length = k) :
    ((l.map f).flatten).length = l.length * k := by
  induction l with
  | nil => simp
  | cons a t ih =>
    simp only [List.map_cons, List.flatten_cons, List.length_append,
      List.length_cons]
    rw [hf a (List.mem_cons_self a t), ih (fun x hx => hf x (List.mem_cons_of_mem a hx))]
    ring

/-- Claim C7: suggestPlan(interest, years) returns semester entries covering
exactly the requested number of years worth of terms — one entry per policy
term per year, so the length is years times the per-year term count, every
entry has a non-empty course list and a year between 1 and years, and every
(year, policy term) pair in range is covered; in particular the plan for
two years covers exactly two years. -/
theorem suggestPlan_covers_requested_years (interest : String) (years : Nat) :
    (CourseResolver.suggestPlan interest years).length
      = years * CourseResolver.planTermsPerYear.length
    ∧ (∀ e ∈ CourseResolver.suggestPlan interest years,
        e.courses ≠ [] ∧ 1 ≤ e.year ∧ e.year ≤ years)
    ∧ (∀ y t, 1 ≤ y → y ≤ years → t ∈ CourseResolver.planTermsPerYear →
        ∃ e ∈ CourseResolver.suggestPlan interest years,
          e.year = y ∧ e.term = t) := by
  refine ⟨?_, ?_, ?_⟩
  · rw [CourseResolver.suggestPlan,
      flatten_map_length _ _ CourseResolver.planTermsPerYear.length
        (fun a _ => List.length_map _ _), List.length_range]
  · intro e he
    simp only [CourseResolver.suggestPlan, List.mem_flatten, List.mem_map] at he
    rcases he with ⟨inner, ⟨y, hy, rfl⟩, he⟩
    rcases List.mem_map.mp he with ⟨t, ht, rfl⟩
    have hy2 : y < years := List.mem_range.mp hy
    refine ⟨by simp, Nat.succ_le_succ (Nat.zero_le y), ?_⟩
    show y + 1 ≤ years
    omega
  · intro y t hy1 hy2 ht
    refine ⟨{ year := y - 1 + 1, term := t,
              courses := [interest ++ " core course", interest ++ " elective"],
              credits := some 8, notes := none }, ?_, ?_, rfl⟩
    · simp only [CourseResolver.suggestPlan, List.mem_flatten, List.mem_map]
      exact ⟨_, ⟨y - 1, List.mem_range.mpr (by omega), rfl⟩,
        List.mem_map.mpr ⟨t, ht, rfl⟩⟩
    · show y - 1 + 1 = y
      omega

/-- Witness for C7 at the concrete request of the spec scenario: the plan for
machine learning over 2 years has one entry per term of each of the 2 years,
and covers year 1 Fall. -/
theorem suggestPlan_covers_requested_years_witness :
    (CourseResolver.suggestPlan "machine learning" 2).length
      = 2 * CourseResolver.planTermsPerYear.length
    ∧ ∃ e ∈ CourseResolver.suggestPlan "machine learning" 2,
        e.year = 1 ∧ e.term = "Fall" :=
  ⟨(suggestPlan_covers_requested_years "machine learning" 2).1,
   (suggestPlan_covers_requested_years "machine learning" 2).2.2 1 "Fall"
     (by decide) (by decide) (by decide)⟩

/-- Claim C8: whatever is typed into the verification-code input, the stored
OTP value has length at most 6 and consists of decimal digits only. -/
theorem otp_input_digits_only (s : String) :
    (sanitizeOtpInput s).length ≤ 6
    ∧ (sanitizeOtpInput s).toList.all Char.isDigit = true := by
  constructor
  · have h : (sanitizeOtpInput s).length
        = ((s.toList.filter Char.isDigit).take 6).length := rfl
    rw [h, List.length_take]
    exact min_le_left _ _
  · rw [List.all_eq_true]
    intro c hc
    have hc2 : c ∈ (s.toList.filter Char.isDigit).take 6 := hc
    exact (List.mem_filter.mp (List.take_subset _ _ hc2)).2

/-- Claim C9: each list-returning CourseAPI method yields the empty list when
the GraphQL response lacks the expected field, and the field content
unchanged when it is present — the caller always receives a list. -/
theorem courseAPI_lists_default_empty (ts : List Term) (ss : List Subject)
    (cs : List Class) (ps : List SuggestedPlan) :
    CourseAPI.getTerms ⟨none⟩ = []
    ∧ CourseAPI.getSubjects ⟨none⟩ = []
    ∧ CourseAPI.searchCourses ⟨none⟩ = []
    ∧ CourseAPI.suggestPlan ⟨none⟩ = []
    ∧ CourseAPI.getTerms ⟨some ts⟩ = ts
    ∧ CourseAPI.getSubjects ⟨some ss⟩ = ss
    ∧ CourseAPI.searchCourses ⟨some cs⟩ = cs
    ∧ CourseAPI.suggestPlan ⟨some ps⟩ = ps :=
  ⟨rfl, rfl, rfl, rfl, rfl, rfl, rfl, rfl⟩

/-- Splitting a list into consecutive chunks of size m, one chunk per index
below the ceiling of length / m, and flattening them restores the list. -/
theorem chunks_flatten {α : Type} (m : Nat) (hm : 0 < m) :
    ∀ (k : Nat) (l : List α), l.length ≤ k →
      ((List.range ((l.length + m - 1) / m)).map
        (fun i => (l.drop (i * m)).take m)).flatten = l := by
  intro k
  induction k with
  | zero =>
    intro l hl
    have hnil : l = [] := by
      cases l with
      | nil => rfl
      | cons a t => simp at hl
    subst hnil
    have h0 : (([] : List α).length + m - 1) / m = 0 := by
      simp only [List.length_nil, Nat.zero_add]
      exact Nat.div_eq_of_lt (by omega)
    rw [h0]
    simp
  | succ k ih =>
    intro l hl
    cases l with
    | nil =>
      have h0 : (([] : List α).length + m - 1) / m = 0 := by
        simp only [List.length_nil, Nat.zero_add]
        exact Nat.div_eq_of_lt (by omega)
      rw [h0]
      simp
    | cons a t =>
      have hlen1 : 1 ≤ (a :: t).length := by simp
      have hstep : ((a :: t).length + m - 1) / m
          = (((a :: t).drop m).length + m - 1) / m + 1 := by
        rw [List.length_drop]
        rcases Nat.le_total m (a :: t).length with hcase | hcase
        · have heq : (a :: t).length + m - 1 = ((a :: t).length - m + m - 1) + m := by
            omega
          rw [heq, Nat.add_div_right _ hm]
        · have hl0 : (a :: t).length - m = 0 := by omega
          rw [hl0]
          have hone : ((a :: t).length + m - 1) / m = 1 :=
            Nat.div_eq_of_lt_le (by omega) (by omega)
          have hzero : (0 + m - 1) / m = 0 := Nat.div_eq_of_lt (by omega)
          rw [hone, hzero]
      rw [hstep, List.range_succ_eq_map]
      simp only [List.map_cons, List.flatten_cons, List.map_map]
      have hmap : (List.range ((((a :: t).drop m).length + m - 1) / m)).map
            ((fun i => ((a :: t).drop (i * m)).take m) ∘ Nat.succ)
          = (List.range ((((a :: t).drop m).length + m - 1) / m)).map
            (fun i => (((a :: t).drop m).drop (i * m)).take m) := by
        apply List.map_congr_left
        intro i _
        show ((a :: t).drop (Nat.succ i * m)).take m
            = (((a :: t).drop m).drop (i * m)).take m
        rw [List.drop_drop, Nat.succ_mul, Nat.add_comm]
      rw [hmap, ih ((a :: t).drop m) (by rw [List.length_drop]; omega)]
      simp only [Nat.zero_mul, List.drop_zero]
      exact List.take_append_drop m (a :: t)

/-- Claim C10: course-search pagination with page size 15 partitions the
result list — concatenating the pages for 1..totalPages in order restores
the full result list (so each course appears on exactly one page), page p
holds exactly the slice of length min 15 (n - 15 * (p - 1)) starting at
index 15 * (p - 1), and totalPages is the ceiling of n / 15, characterised
by n ≤ 15 * totalPages < n + 15. -/
theorem course_pagination_partition (courses : List Class) (p : Nat)
    (hp1 : 1 ≤ p) (hp2 : p ≤ CourseSearch.totalPages courses) :
    ((List.range (CourseSearch.totalPages courses)).map
        (fun i => CourseSearch.currentCourses courses (i + 1))).flatten = courses
    ∧ (CourseSearch.currentCourses courses p).length
        = min CourseSearch.itemsPerPage (courses.length - CourseSearch.startIndex p)
    ∧ courses.length ≤ CourseSearch.itemsPerPage * CourseSearch.totalPages courses
    ∧ CourseSearch.itemsPerPage * CourseSearch.totalPages courses
        < courses.length + CourseSearch.itemsPerPage := by
  refine ⟨?_, ?_, ?_, ?_⟩
  · have hcur : (List.range (CourseSearch.totalPages courses)).map
          (fun i => CourseSearch.currentCourses courses (i + 1))
        = (List.range ((courses.length + 15 - 1) / 15)).map
          (fun i => (courses.drop (i * 15)).take 15) := by
      have htp : CourseSearch.totalPages courses = (courses.length + 15 - 1) / 15 := rfl
      rw [htp]
      apply List.map_congr_left
      intro i _
      simp [CourseSearch.currentCourses, CourseSearch.slice, CourseSearch.startIndex,
        CourseSearch.endIndex, CourseSearch.itemsPerPage]
    rw [hcur]
    exact chunks_flatten 15 (by omega) courses.length courses (Nat.le_refl _)
  · simp [CourseSearch.currentCourses, CourseSearch.slice, CourseSearch.startIndex,
      CourseSearch.endIndex, CourseSearch.itemsPerPage, List.length_take,
      List.length_drop]
  · have htp : CourseSearch.totalPages courses = (courses.length + 15 - 1) / 15 := rfl
    rw [htp]
    show courses.length ≤ 15 * ((courses.length + 15 - 1) / 15)
    omega
  · have htp : CourseSearch.totalPages courses = (courses.length + 15 - 1) / 15 := rfl
    rw [htp]
    show 15 * ((courses.length + 15 - 1) / 15) < courses.length + 15
    omega

/-- Witness for C10 at twenty concrete courses: the two pages concatenate to
the full list and the second page has length min 15 (20 - 15) = 5. -/
theorem course_pagination_partition_witness :
    ((List.range (CourseSearch.totalPages demoCourses)).map
        (fun i => CourseSearch.currentCourses demoCourses (i + 1))).flatten = demoCourses
    ∧ (CourseSearch.currentCourses demoCourses 2).length
        = min CourseSearch.itemsPerPage
            (demoCourses.length - CourseSearch.startIndex 2) :=
  ⟨(course_pagination_partition demoCourses 2 (by decide) (by decide)).1,
   (course_pagination_partition demoCourses 2 (by decide) (by decide)).2.1⟩

end NEUScheduler
